import Mathlib

/-!
Verification of the execution-and-grading engine in `src/execution.py`.

The development shallowly embeds the three public operations of that module:

* `compare_dataframes` (source lines 133-222): the verdict engine deciding
  whether a submitted table matches the expected table;
* `execute_pandas` (source lines 48-90): the dataframe backend, modelled over
  an abstract outcome of `exec`-ing the submitted code;
* `execute_sql` (source lines 93-130): the relational backend, modelled over
  an abstract outcome of the SQLite session, with the connection lifecycle
  tracked explicitly.

Scalar cell values are modelled by `PyVal`, with Python floats represented as
rational numbers so that the tolerance formula `|a - b| <= atol + rtol * |b|`
used by `pd.testing.assert_frame_equal(check_exact=False, rtol=1e-5,
atol=1e-8)` is stated exactly.
-/

/-- A Python scalar cell value: `int`, `float` (modelled as an exact rational),
`str` or `bool`.  Floats are the values fed to the tolerant numeric comparison
of `pd.testing.assert_frame_equal`. -/
inductive PyVal where
  | int (n : Int)
  | float (q : ℚ)
  | str (s : String)
  | bool (b : Bool)
deriving DecidableEq

/-- A pandas `DataFrame`: an ordered sequence of column names, an ordered
sequence of rows (each an ordered sequence of cell values aligned with the
columns), and the row index labels.  Index labels are carried so that
`reset_index(drop=True)` in `compare_dataframes` (source line 185) is
modelled faithfully. -/
structure DataFrame where
  cols : List String
  rows : List (List PyVal)
  index : List Int
deriving DecidableEq

/-- `df.shape`: the `(row count, column count)` pair (source line 152). -/
def DataFrame.shape (d : DataFrame) : Nat × Nat :=
  (d.rows.length, d.cols.length)

/-- `df.reset_index(drop=True)` (source lines 185-186): the row index labels
are replaced by the canonical range `0..N-1`; columns and rows are untouched. -/
def DataFrame.reset_index (d : DataFrame) : DataFrame :=
  { d with index := (List.range d.rows.length).map Int.ofNat }

/-- A well-formed Table in the sense of the data model: every row has exactly
as many cells as there are columns, the index has one label per row, and
column names are unique within the table. -/
def DataFrame.WellFormed (d : DataFrame) : Prop :=
  (∀ r ∈ d.rows, r.length = d.cols.length) ∧
    d.index.length = d.rows.length ∧ d.cols.Nodup

instance (d : DataFrame) : Decidable d.WellFormed := by
  unfold DataFrame.WellFormed; infer_instance

/-- An arbitrary Python runtime value as seen by `compare_dataframes` and by
the `result`-binding check of `execute_pandas`: either an actual `DataFrame`,
or some other object of which only `type(x).__name__` matters to the source. -/
inductive PyObj where
  | dataframe (df : DataFrame)
  | other (typeName : String)
deriving DecidableEq

/-- The structured content of the `(is_correct, feedback_message)` pair
returned by `compare_dataframes`: one constructor per `return` site, carrying
exactly the data interpolated into the corresponding message. -/
inductive Verdict where
  /-- Source line 198: all checks passed. -/
  | correct
  /-- Source line 149: `user_df` is not a DataFrame; carries
  `type(user_df).__name__`. -/
  | typeMismatch (gotType : String)
  /-- Source lines 153-158: shapes differ; carries both shapes. -/
  | shapeMismatch (userShape expectedShape : Nat × Nat)
  /-- Source lines 176-182: the column-name sets differ; carries the sorted
  missing names and the sorted extra names. -/
  | columnSetMismatch (missing extra : List String)
  /-- Source lines 167-170: same column-name set, different sequence; carries
  both sequences. -/
  | columnOrderMismatch (userCols expectedCols : List String)
  /-- Source lines 204-205: the assertion message contains `dtype`; carries
  the assertion message interpolated into `Data type mismatch: ...`. -/
  | dtypeMismatch (message : String)
  /-- Source lines 214-217: cell values differ; carries the list of column
  names whose values are not exactly equal. -/
  | valueMismatch (differences : List String)
  /-- Source lines 218-219: the assertion message mentions values or a
  difference but no offending column was located by the exact per-column
  scan; carries the message of `Values don't match: ...`. -/
  | valueMismatchUnlocated (message : String)
  /-- Source lines 220-221: the assertion message matched none of the
  recognized patterns; carries the message of
  `Output doesn't match expected result: ...`. -/
  | unexpectedMismatch (message : String)
deriving DecidableEq

/-- Relative tolerance `rtol=1e-5` passed to `assert_frame_equal`
(source line 195). -/
def rtol : ℚ := 1 / 100000

/-- Absolute tolerance `atol=1e-8` passed to `assert_frame_equal`
(source line 196). -/
def atol : ℚ := 1 / 100000000

/-- Absolute value on the rationals modelling a float, written as the
executable conditional so that concrete cells evaluate. -/
def ratAbs (q : ℚ) : ℚ := if q < 0 then -q else q

/-- Numeric reading of a cell: `check_dtype=False` (source line 193) makes
integer and float cells comparable by numeric value; text and boolean cells
have no numeric reading. -/
def asRat : PyVal → Option ℚ
  | .int n => some (n : ℚ)
  | .float q => some q
  | _ => none

/-- Tolerant cell comparison performed by `assert_frame_equal` with
`check_exact=False, rtol=1e-5, atol=1e-8` (source lines 190-197): two numeric
cells `a, b` are equal when `|a - b| <= atol + rtol * |b|`; non-numeric cells
compare by exact equality. -/
def cellClose (a b : PyVal) : Bool :=
  match asRat a, asRat b with
  | some x, some y => decide (ratAbs (x - y) ≤ atol + rtol * ratAbs y)
  | _, _ => decide (a = b)

/-- The cells of column `j` of a DataFrame, top to bottom. -/
def DataFrame.column (d : DataFrame) (j : Nat) : List PyVal :=
  d.rows.map (fun r => r.getD j (.str ""))

/-- Pointwise tolerant comparison of two columns; false when the lengths
differ. -/
def listClose : List PyVal → List PyVal → Bool
  | [], [] => true
  | a :: as, b :: bs => cellClose a b && listClose as bs
  | _, _ => false

/-- Tolerant comparison of all columns of two DataFrames, column by column as
`assert_frame_equal` performs it. -/
def columnsClose (u e : DataFrame) : Bool :=
  (List.range u.cols.length).all fun j => listClose (u.column j) (e.column j)

/-- The comparison performed by `pd.testing.assert_frame_equal(user_clean,
expected_clean, check_dtype=False, check_exact=False, rtol=1e-5, atol=1e-8)`
(source lines 190-197): the row indices must agree, the column sequences must
agree, and every column must be pointwise within tolerance.  `true` means the
assertion passes. -/
def framesClose (u e : DataFrame) : Bool :=
  decide (u.index = e.index) && decide (u.cols = e.cols) && columnsClose u e

/-- The `differences` list computed in the `AssertionError` handler (source
lines 208-211): the names of the columns whose cell sequences are not exactly
equal (`Series.equals` is an exact check, unlike the tolerant comparison). -/
def diffColumns (u e : DataFrame) : List String :=
  ((List.range u.cols.length).filter fun j =>
      decide (¬ u.column j = e.column j)).map
    fun j => u.cols.getD j ""

/-- Python set equality `set(a) == set(b)` on column-name lists
(source line 166). -/
def sameColSet (a b : List String) : Bool :=
  (a.all fun c => decide (c ∈ b)) && (b.all fun c => decide (c ∈ a))

/-- `sorted(expected_cols_set - user_cols_set)` (source lines 173, 178): the
expected column names absent from the user's columns, deduplicated and sorted
lexicographically. -/
def missingCols (u e : DataFrame) : List String :=
  List.insertionSort (· ≤ ·) ((e.cols.filter fun c => decide (¬ c ∈ u.cols)).dedup)

/-- `sorted(user_cols_set - expected_cols_set)` (source lines 174, 180): the
user's column names absent from the expected columns, deduplicated and sorted
lexicographically. -/
def extraCols (u e : DataFrame) : List String :=
  List.insertionSort (· ≤ ·) ((u.cols.filter fun c => decide (¬ c ∈ e.cols)).dedup)

/-- Python substring search over character lists: `substrAux needle hay` is
`true` exactly when `needle` occurs contiguously in `hay`, like the
`in` operator on `str`. -/
def substrAux (needle : List Char) : List Char → Bool
  | [] => needle.isEmpty
  | c :: rest => needle.isPrefixOf (c :: rest) || substrAux needle rest

/-- Python `pat in s.lower()` (source lines 204 and 206): whether the
already-lowercase pattern `pat` occurs in the lowercased text of `s`. -/
def strContainsLower (s : String) (pat : String) : Bool :=
  substrAux pat.toList (s.toList.map Char.toLower)

/-- Contribution of one cell to the modelled assertion message.  String cells
surface verbatim in the value listing of the pandas message; integer, float
and boolean cells print as digit, digit-dot-exponent or `True`/`False` text,
in which the letters of the dispatch keywords `dtype`, `values` and
`different` cannot occur, so they are abstracted to fixed placeholders of the
same shape. -/
def pyValRepr : PyVal → String
  | .int _ => "0"
  | .float _ => "0.0"
  | .str s => s
  | .bool _ => "True"

/-- Comma-separated value listing, as in the `[left]: [...]` line of the
pandas message. -/
def joinReprs (cells : List PyVal) : String :=
  String.intercalate ", " (cells.map pyValRepr)

/-- Modelled from the pandas library (external to this repository's code):
the text of the `AssertionError` raised by `assert_frame_equal` when the
tolerant value comparison fails.  Pandas names the first differing column
positionally and by name, states that its values are different, and lists
the left/right values, e.g.
`DataFrame.iloc[:, 0] (column name="X") values are different ... [left]: [...] [right]: [...]`.
The model keeps exactly the components the message dispatch of source lines
202-221 can depend on: the fixed template words, the failing column's name,
and the text of string cells (numeric and boolean cells cannot contribute
the dispatch keywords and appear as placeholders, see `pyValRepr`).  The
fallback line for a failure outside the per-column checks keeps the
template's `are different` wording. -/
def assertionMessage (u e : DataFrame) : String :=
  match (List.range u.cols.length).find?
      (fun j => ! listClose (u.column j) (e.column j)) with
  | some j =>
      "DataFrame.iloc[:, " ++ toString j ++ "] (column name=\"" ++
        u.cols.getD j "" ++ "\") values are different" ++
        "\n[left]:  [" ++ joinReprs (u.column j) ++
        "]\n[right]: [" ++ joinReprs (e.column j) ++ "]"
  | none => "DataFrame are different"

/-- `compare_dataframes(user_df, expected_df)` (source lines 133-222), with
each `return` site mapped to the `Verdict` constructor carrying the data of
its message.  The checks run in the source's order: DataFrame type guard,
shape, column names (set first, then order), then the tolerant value
comparison on the index-reset frames.  A value-comparison failure is
classified by the text of the assertion message exactly as in source lines
200-221: a message containing `dtype` yields the data-type verdict; else a
message mentioning `values` or `different` triggers the exact per-column
scan, naming the differing columns when the scan finds any; any other
message yields the fallback verdict. -/
def compare_dataframes (user_df : PyObj) (expected_df : DataFrame) : Verdict :=
  match user_df with
  | .other tn => .typeMismatch tn
  | .dataframe u =>
    if u.shape ≠ expected_df.shape then
      .shapeMismatch u.shape expected_df.shape
    else if u.cols ≠ expected_df.cols then
      (if sameColSet u.cols expected_df.cols then
        .columnOrderMismatch u.cols expected_df.cols
      else
        .columnSetMismatch (missingCols u expected_df) (extraCols u expected_df))
    else
      let user_clean := u.reset_index
      let expected_clean := expected_df.reset_index
      if framesClose user_clean expected_clean then
        .correct
      else
        (let error_msg := assertionMessage user_clean expected_clean
        if strContainsLower error_msg "dtype" then
          .dtypeMismatch error_msg
        else if strContainsLower error_msg "values" ||
            strContainsLower error_msg "different" then
          (let differences := diffColumns user_clean expected_clean
          if differences ≠ [] then .valueMismatch differences
          else .valueMismatchUnlocated error_msg)
        else .unexpectedMismatch error_msg)


/-- The single-quote character as a string, used to spell the quoted variable
name in the contract-violation message without an apostrophe literal. -/
def singleQuote : String := String.singleton (Char.ofNat 39)

/-- Module constant `EXECUTION_TIMEOUT = 5` (source line 11): the execution
deadline in seconds.  Neither `execute_pandas` nor `execute_sql` takes a
timeout parameter; both pass this constant to `time_limit` (source lines 61
and 107). -/
def EXECUTION_TIMEOUT : Nat := 5

/-- The message of the `TimeoutError` raised by the `SIGALRM` handler
installed by `time_limit(seconds)` (source line 31). -/
def time_limit_message (seconds : Nat) : String :=
  s!"Code execution exceeded {seconds} second time limit"

/-- The error string returned by `execute_pandas` on `TimeoutError`
(source line 88). -/
def pandasTimeoutMessage : String :=
  "Timeout Error: " ++ time_limit_message EXECUTION_TIMEOUT ++
    "\n\nYour code took too long to execute. Check for infinite loops or very slow operations."

/-- The error string returned by `execute_sql` on `TimeoutError`
(source line 121). -/
def sqlTimeoutMessage : String :=
  "Timeout Error: " ++ time_limit_message EXECUTION_TIMEOUT ++
    "\n\nYour SQL query took too long to execute. Check for infinite loops or very slow operations."

/-- The contract-violation message returned when the submitted code never
assigned the `result` variable (source line 77). -/
def missingResultMessage : String :=
  "Error: Your code must assign the output to a variable named " ++
    singleQuote ++ "result" ++ singleQuote

/-- The contract-violation message returned when `result` is bound to a
non-DataFrame value (source line 83); `typeName` is
`type(result).__name__`. -/
def wrongTypeMessage (typeName : String) : String :=
  s!"Error: Expected result to be a DataFrame, but got {typeName}"

/-- The outcome of the protected region of `execute_pandas` (source lines
61-73): `exec(code, namespace)` under `with time_limit(EXECUTION_TIMEOUT)`
either terminates leaving a final namespace, or an exception reaches the
handlers at lines 87-90.  Python distinguishes three exception levels there:
the module's `TimeoutError` (caught at line 87), any other subclass of
`Exception` — carried as its `traceback.format_exc()` text (caught at line
89) — and a `BaseException` that is not an `Exception`, such as `SystemExit`
or `KeyboardInterrupt`, which no handler catches. -/
inductive ExecResult where
  | ok (ns : List (String × PyObj))
  | raisesExc (tb : String)
  | raisesTimeout
  | raisesBase (tb : String)

/-- `execute_pandas(code, input_tables)` (source lines 48-90) as a function of
the outcome of the protected region.  The value is the returned
`(result, error)` pair; `Except.error tb` models an exception escaping the
function because neither `except TimeoutError` nor `except Exception`
catches it. -/
def execute_pandas : ExecResult → Except String (Option DataFrame × Option String)
  | .ok ns =>
    match ns.lookup "result" with
    | none => .ok (none, some missingResultMessage)
    | some (.dataframe d) => .ok (some d, none)
    | some (.other tn) => .ok (none, some (wrongTypeMessage tn))
  | .raisesTimeout => .ok (none, some pandasTimeoutMessage)
  | .raisesExc tb => .ok (none, some tb)
  | .raisesBase tb => .error tb

/-- The outcome of the protected region of `execute_sql` (source lines
107-118), distinguishing where control left it: `sqlite3.connect` itself
raised (so `conn` is still `None`, source lines 105 and 109); the table
loading or the query raised some other `Exception` (caught at line 122); the
`TimeoutError` fired (caught at line 120); a non-`Exception`
`BaseException` escaped; or the query succeeded. -/
inductive SqlBehavior where
  | connectRaises (tb : String)
  | bodyRaisesExc (tb : String)
  | bodyRaisesTimeout
  | bodyRaisesBase (tb : String)
  | succeeds (df : DataFrame)

/-- The observable result of one `execute_sql` call: the returned (or
escaping) value together with the connection lifecycle — whether the
in-memory connection was ever opened and whether it was closed before the
call ended. -/
structure SqlCall where
  result : Except String (Option DataFrame × Option String)
  connOpened : Bool
  connClosed : Bool

/-- The `try` body and `except` clauses of `execute_sql` (source lines
106-123), before the `finally` block runs: the value heading out of the
function, paired with whether `conn` holds an open connection. -/
def execute_sql_body :
    SqlBehavior → Except String (Option DataFrame × Option String) × Bool
  | .connectRaises tb => (.ok (none, some tb), false)
  | .bodyRaisesExc tb => (.ok (none, some tb), true)
  | .bodyRaisesTimeout => (.ok (none, some sqlTimeoutMessage), true)
  | .bodyRaisesBase tb => (.error tb, true)
  | .succeeds df => (.ok (some df, none), true)

/-- `execute_sql(query, input_tables)` (source lines 93-130).  The `finally`
block (source lines 124-130) runs on every exit path — returns, caught
exceptions and escaping `BaseException`s alike — and closes `conn` exactly
when it is not `None`. -/
def execute_sql (b : SqlBehavior) : SqlCall :=
  let r := execute_sql_body b
  { result := r.1, connOpened := r.2, connClosed := r.2 }

/-- The heap of live DataFrame objects; an address is a position in the
list.  Distinct addresses are distinct Python objects: mutating the object at
one address never changes another. -/
abbrev Store := List DataFrame

/-- The observable effect of `exec(code, namespace)` on the objects the
namespace exposes: the final values of the bound table objects (the
submission may mutate the bound copies in place) together with the exec
outcome.  It is a function of the table values visible in the namespace
only. -/
structure CodeEffect where
  finalTables : List DataFrame
  result : ExecResult

/-- `execute_pandas` with the object heap explicit (source lines 68-73): each
input table is copied into a fresh heap cell (`namespace[table_name] =
df.copy()`, source line 70), the submitted code `sem` observes the copied
values and its in-place mutations land in the fresh cells, and the outcome is
computed from the exec result exactly as in `execute_pandas`. -/
def execute_pandas_heap (sem : List (String × DataFrame) → CodeEffect)
    (s : Store) (tables : List (String × Nat)) :
    Except String (Option DataFrame × Option String) × Store :=
  let vals := tables.map fun p => (p.1, s.getD p.2 ⟨[], [], []⟩)
  let eff := sem vals
  (execute_pandas eff.result, s ++ eff.finalTables)

/-- `execute_sql` with the object heap explicit (source lines 109-116): the
loading loop `df.to_sql(table_name, conn, ...)` only reads each input
DataFrame — its rows are serialized into the fresh in-memory SQLite
database — and the submitted SQL string runs inside that database with no
handle on any Python object, so the session behaviour `sem` is a function of
the table values read and no heap cell is written. -/
def execute_sql_heap (sem : List (String × DataFrame) → SqlBehavior)
    (s : Store) (tables : List (String × Nat)) : SqlCall × Store :=
  let vals := tables.map fun p => (p.1, s.getD p.2 ⟨[], [], []⟩)
  (execute_sql (sem vals), s)

theorem ratAbs_nonneg (q : ℚ) : 0 ≤ ratAbs q := by
  unfold ratAbs; split <;> linarith

theorem ratAbs_eq_abs (q : ℚ) : ratAbs q = |q| := by
  unfold ratAbs
  split
  · exact (abs_of_neg (by assumption)).symm
  · exact (abs_of_nonneg (not_lt.1 (by assumption))).symm

theorem tol_nonneg (q : ℚ) : 0 ≤ atol + rtol * ratAbs q := by
  have h := ratAbs_nonneg q
  have h1 : (0 : ℚ) ≤ atol := by norm_num [atol]
  have h2 : (0 : ℚ) ≤ rtol := by norm_num [rtol]
  nlinarith

theorem closeQ_refl (x : ℚ) : ratAbs (x - x) ≤ atol + rtol * ratAbs x := by
  rw [sub_self]
  have h0 : ratAbs 0 = 0 := by simp [ratAbs]
  rw [h0]
  exact tol_nonneg x

theorem cellClose_refl (a : PyVal) : cellClose a a = true := by
  cases a with
  | int n => simpa [cellClose, asRat] using closeQ_refl (n : ℚ)
  | float q => simpa [cellClose, asRat] using closeQ_refl q
  | str s => simp [cellClose, asRat]
  | bool b => simp [cellClose, asRat]

theorem listClose_refl (l : List PyVal) : listClose l l = true := by
  induction l with
  | nil => rfl
  | cons a t ih => simp [listClose, cellClose_refl, ih]

theorem columnsClose_refl (d : DataFrame) : columnsClose d d = true := by
  simp [columnsClose, List.all_eq_true, listClose_refl]

theorem framesClose_refl (d : DataFrame) : framesClose d d = true := by
  simp [framesClose, columnsClose_refl]

theorem sameColSet_refl (a : List String) : sameColSet a a = true := by
  simp [sameColSet, List.all_eq_true]

theorem diffColumns_ne_nil {u e : DataFrame} (hcc : columnsClose u e = false) :
    diffColumns u e ≠ [] := by
  have h1 : ¬ ((List.range u.cols.length).all
      (fun j => listClose (u.column j) (e.column j)) = true) := by
    rw [← columnsClose]; simp [hcc]
  rw [List.all_eq_true] at h1
  push_neg at h1
  obtain ⟨j, hj, hne⟩ := h1
  have hcol : ¬ u.column j = e.column j := by
    intro h
    rw [h, listClose_refl] at hne
    exact hne rfl
  unfold diffColumns
  apply List.ne_nil_of_mem
    (a := u.cols.getD j "")
  exact List.mem_map_of_mem _ (List.mem_filter.2 ⟨hj, by simpa using hcol⟩)

/-- C5: for every well-formed Table `T`, `compare_dataframes(T, T)` returns
the Correct verdict: the type guard, shape check and column check all pass on
identical frames, and every cell is within tolerance of itself. -/
theorem compare_dataframes_self_correct (T : DataFrame) (_h : T.WellFormed) :
    compare_dataframes (.dataframe T) T = .correct := by
  simp [compare_dataframes, framesClose_refl]

theorem compare_dataframes_self_correct_witness :
    compare_dataframes
        (.dataframe ⟨["name", "age"], [[.str "Alice", .int 30]], [0]⟩)
        ⟨["name", "age"], [[.str "Alice", .int 30]], [0]⟩ = .correct :=
  compare_dataframes_self_correct
    ⟨["name", "age"], [[.str "Alice", .int 30]], [0]⟩ (by decide)

/-- C9: on every exit path of `execute_sql` on which the in-memory connection
was opened — success, submission failure, timeout, or an exception raised
while loading tables or executing the query — the `finally` block closes the
connection before the function returns. -/
theorem execute_sql_connection_closed (b : SqlBehavior)
    (h : (execute_sql b).connOpened = true) :
    (execute_sql b).connClosed = true := by
  cases b
  case connectRaises tb => simp [execute_sql, execute_sql_body] at h
  all_goals rfl

theorem execute_sql_connection_closed_witness :
    (execute_sql (.succeeds ⟨["a"], [[.str "x"]], [0]⟩)).connClosed = true :=
  execute_sql_connection_closed (.succeeds ⟨["a"], [[.str "x"]], [0]⟩) rfl

/-- C10: the execution deadline of both backends is the module constant
`EXECUTION_TIMEOUT = 5` on every call — the functions take no timeout
parameter, so the bound is not caller-configurable — and the timeout outcome
of each backend renders that same constant into its message. -/
theorem execution_timeout_is_fixed_five :
    EXECUTION_TIMEOUT = 5 ∧
    time_limit_message EXECUTION_TIMEOUT =
      "Code execution exceeded 5 second time limit" ∧
    execute_pandas .raisesTimeout = .ok (none, some pandasTimeoutMessage) ∧
    (execute_sql .bodyRaisesTimeout).result = .ok (none, some sqlTimeoutMessage) ∧
    pandasTimeoutMessage =
      "Timeout Error: Code execution exceeded 5 second time limit" ++
        "\n\nYour code took too long to execute. Check for infinite loops or very slow operations." ∧
    sqlTimeoutMessage =
      "Timeout Error: Code execution exceeded 5 second time limit" ++
        "\n\nYour SQL query took too long to execute. Check for infinite loops or very slow operations." := by
  refine ⟨rfl, by decide, rfl, rfl, by decide, by decide⟩

/-- C7: if the submitted code runs without raising but never binds `result`,
`execute_pandas` returns the contract-violation error naming that exact
variable, and if `result` is bound to a non-DataFrame value it returns the
contract-violation error naming the actual runtime type. -/
theorem execute_pandas_contract_violations :
    (∀ ns : List (String × PyObj), ns.lookup "result" = none →
        execute_pandas (.ok ns) = .ok (none, some missingResultMessage)) ∧
    missingResultMessage =
      "Error: Your code must assign the output to a variable named " ++
        singleQuote ++ "result" ++ singleQuote ∧
    (∀ (ns : List (String × PyObj)) (tn : String),
        ns.lookup "result" = some (.other tn) →
        execute_pandas (.ok ns) = .ok (none, some (wrongTypeMessage tn))) ∧
    (∀ tn : String, wrongTypeMessage tn =
        "Error: Expected result to be a DataFrame, but got " ++ tn) := by
  refine ⟨fun ns h => ?_, rfl, fun ns tn h => ?_, fun tn => ?_⟩
  · simp [execute_pandas, h]
  · simp [execute_pandas, h]
  · simp [wrongTypeMessage, toString, String.append_empty]

theorem execute_pandas_contract_violations_witness :
    execute_pandas (.ok [("tables", .other "dict")])
      = .ok (none, some missingResultMessage) ∧
    execute_pandas (.ok [("result", .other "int")])
      = .ok (none, some (wrongTypeMessage "int")) :=
  ⟨execute_pandas_contract_violations.1 [("tables", .other "dict")] rfl,
   execute_pandas_contract_violations.2.2.1 [("result", .other "int")] "int" rfl⟩

/-- Predicate on a backend call result: true when the function returned a
`(result, error)` pair to its caller, false when an exception escaped. -/
def returnsPair : Except String (Option DataFrame × Option String) → Bool
  | .ok _ => true
  | .error _ => false

/-- C3 counterexample: a submission raising `SystemExit` — a `BaseException`
that is not an `Exception`, e.g. code calling `sys.exit(1)` — is caught by
neither `except TimeoutError` nor `except Exception`, so it escapes
`execute_pandas` instead of being returned as the error component. -/
theorem execute_pandas_system_exit_escapes :
    execute_pandas (.raisesBase "SystemExit: 1") = .error "SystemExit: 1" ∧
    returnsPair (execute_pandas (.raisesBase "SystemExit: 1")) = false :=
  ⟨rfl, rfl⟩

/-- C3 (amended): for every outcome of the protected region other than an
escaping non-`Exception` `BaseException` (such as `SystemExit` or
`KeyboardInterrupt`), `execute_pandas` and `execute_sql` return a
`(result, error)` pair rather than raising: Exception-level submission
errors come back as their formatted traceback text in the error component,
and timeouts and contract violations come back as their message strings. -/
theorem backends_return_failures_as_data :
    (∀ r : ExecResult, (∀ tb, r ≠ .raisesBase tb) →
        returnsPair (execute_pandas r) = true) ∧
    (∀ tb : String, execute_pandas (.raisesExc tb) = .ok (none, some tb)) ∧
    execute_pandas .raisesTimeout = .ok (none, some pandasTimeoutMessage) ∧
    (∀ b : SqlBehavior, (∀ tb, b ≠ .bodyRaisesBase tb) →
        returnsPair (execute_sql b).result = true) ∧
    (∀ tb : String,
        (execute_sql (.bodyRaisesExc tb)).result = .ok (none, some tb)) ∧
    (∀ tb : String,
        (execute_sql (.connectRaises tb)).result = .ok (none, some tb)) ∧
    (execute_sql .bodyRaisesTimeout).result = .ok (none, some sqlTimeoutMessage) := by
  refine ⟨fun r hr => ?_, fun tb => rfl, rfl, fun b hb => ?_, fun tb => rfl,
    fun tb => rfl, rfl⟩
  · cases r with
    | ok ns =>
      cases hres : ns.lookup "result" with
      | none => simp [execute_pandas, returnsPair, hres]
      | some v => cases v <;> simp [execute_pandas, returnsPair, hres]
    | raisesExc tb => rfl
    | raisesTimeout => rfl
    | raisesBase tb => exact absurd rfl (hr tb)
  · cases b with
    | bodyRaisesBase tb => exact absurd rfl (hb tb)
    | _ => rfl

theorem backends_return_failures_as_data_witness :
    returnsPair (execute_pandas (.raisesExc "ZeroDivisionError traceback")) = true ∧
    returnsPair (execute_sql (.bodyRaisesExc "OperationalError traceback")).result = true :=
  ⟨backends_return_failures_as_data.1 (.raisesExc "ZeroDivisionError traceback")
      (fun tb h => by cases h),
   backends_return_failures_as_data.2.2.2.1 (.bodyRaisesExc "OperationalError traceback")
      (fun tb h => by cases h)⟩

/-- C1: the checks of `compare_dataframes` run in strict short-circuit order
and the verdict of the first failing check is returned: a non-DataFrame input
yields the type-mismatch verdict; else differing shapes yield the
shape-mismatch verdict; else differing column-name sets yield the
column-set-mismatch verdict listing the sorted missing and extra names (whose
membership is exactly set difference); else an equal set in a different
sequence yields the column-order-mismatch verdict showing both sequences;
else the value comparison decides — a failure whose assertion message
contains `dtype` yields the data-type verdict, otherwise a message
mentioning `values` or `different` yields the value-mismatch verdict naming
the differing columns — and the correct verdict is returned exactly when
every check passes. -/
theorem compare_dataframes_check_order :
    (∀ (tn : String) (e : DataFrame),
        compare_dataframes (.other tn) e = .typeMismatch tn) ∧
    (∀ u e : DataFrame, u.shape ≠ e.shape →
        compare_dataframes (.dataframe u) e = .shapeMismatch u.shape e.shape) ∧
    (∀ u e : DataFrame, u.shape = e.shape → sameColSet u.cols e.cols = false →
        compare_dataframes (.dataframe u) e
            = .columnSetMismatch (missingCols u e) (extraCols u e) ∧
          (missingCols u e).Sorted (· ≤ ·) ∧ (extraCols u e).Sorted (· ≤ ·) ∧
          (∀ c, c ∈ missingCols u e ↔ c ∈ e.cols ∧ c ∉ u.cols) ∧
          (∀ c, c ∈ extraCols u e ↔ c ∈ u.cols ∧ c ∉ e.cols)) ∧
    (∀ u e : DataFrame, u.shape = e.shape → u.cols ≠ e.cols →
        sameColSet u.cols e.cols = true →
        compare_dataframes (.dataframe u) e = .columnOrderMismatch u.cols e.cols) ∧
    (∀ u e : DataFrame, u.shape = e.shape → u.cols = e.cols →
        framesClose u.reset_index e.reset_index = false →
        strContainsLower (assertionMessage u.reset_index e.reset_index)
            "dtype" = true →
        compare_dataframes (.dataframe u) e
          = .dtypeMismatch (assertionMessage u.reset_index e.reset_index)) ∧
    (∀ u e : DataFrame, u.shape = e.shape → u.cols = e.cols →
        framesClose u.reset_index e.reset_index = false →
        strContainsLower (assertionMessage u.reset_index e.reset_index)
            "dtype" = false →
        (strContainsLower (assertionMessage u.reset_index e.reset_index)
              "values" ||
          strContainsLower (assertionMessage u.reset_index e.reset_index)
              "different") = true →
        compare_dataframes (.dataframe u) e
          = (if diffColumns u.reset_index e.reset_index ≠ [] then
              .valueMismatch (diffColumns u.reset_index e.reset_index)
            else .valueMismatchUnlocated
              (assertionMessage u.reset_index e.reset_index))) ∧
    (∀ u e : DataFrame, u.shape = e.shape → u.cols = e.cols →
        (compare_dataframes (.dataframe u) e = .correct ↔
          framesClose u.reset_index e.reset_index = true)) := by
  refine ⟨fun tn e => rfl, fun u e h => by simp [compare_dataframes, h],
    fun u e hs hset => ?_, fun u e hs hcols hset => ?_,
    fun u e hs hcols hfc hdt => ?_,
    fun u e hs hcols hfc hdt hvd => ?_, fun u e hs hcols => ?_⟩
  · have hne : u.cols ≠ e.cols := by
      intro heq
      rw [heq, sameColSet_refl] at hset
      cases hset
    refine ⟨by simp [compare_dataframes, hs, hne, hset], ?_, ?_, ?_, ?_⟩
    · exact List.sorted_insertionSort _ _
    · exact List.sorted_insertionSort _ _
    · intro c
      simp [missingCols, (List.perm_insertionSort _ _).mem_iff, List.mem_dedup,
        List.mem_filter]
    · intro c
      simp [extraCols, (List.perm_insertionSort _ _).mem_iff, List.mem_dedup,
        List.mem_filter]
  · simp [compare_dataframes, hs, hcols, hset]
  · simp [compare_dataframes, hs, hcols, hfc, hdt]
  · simp only [Bool.or_eq_true] at hvd
    simp [compare_dataframes, hs, hcols, hfc, hdt, hvd]
  · by_cases hf : framesClose u.reset_index e.reset_index = true
    · simp [compare_dataframes, hs, hcols, hf]
    · rw [Bool.not_eq_true] at hf
      simp only [compare_dataframes, hs, hcols, hf]
      simp [hf]
      split
      · simp
      · split
        · split <;> simp
        · simp

theorem compare_dataframes_check_order_witness :
    compare_dataframes (.other "int") ⟨["a"], [], []⟩ = .typeMismatch "int" ∧
    compare_dataframes (.dataframe ⟨["a"], [], []⟩) ⟨["a"], [[.str "x"]], [0]⟩
      = .shapeMismatch (0, 1) (1, 1) ∧
    compare_dataframes (.dataframe ⟨["a", "x"], [[.str "p", .str "q"]], [0]⟩)
        ⟨["a", "b"], [[.str "p", .str "q"]], [0]⟩
      = .columnSetMismatch ["b"] ["x"] ∧
    compare_dataframes (.dataframe ⟨["b", "a"], [[.str "p", .str "q"]], [0]⟩)
        ⟨["a", "b"], [[.str "q", .str "p"]], [0]⟩
      = .columnOrderMismatch ["b", "a"] ["a", "b"] ∧
    compare_dataframes (.dataframe ⟨["a"], [[.str "v"]], [5]⟩)
        ⟨["a"], [[.str "v"]], [9]⟩ = .correct ∧
    compare_dataframes (.dataframe ⟨["dtype"], [[.str "p"]], [0]⟩)
        ⟨["dtype"], [[.str "q"]], [0]⟩
      = .dtypeMismatch
          (assertionMessage
            (⟨["dtype"], [[.str "p"]], [0]⟩ : DataFrame).reset_index
            (⟨["dtype"], [[.str "q"]], [0]⟩ : DataFrame).reset_index) ∧
    compare_dataframes (.dataframe ⟨["a"], [[.str "v"]], [0]⟩)
        ⟨["a"], [[.str "w"]], [0]⟩ = .valueMismatch ["a"] := by
  refine ⟨compare_dataframes_check_order.1 "int" _,
    (compare_dataframes_check_order.2.1 _ _ (by decide)).trans (by decide),
    ((compare_dataframes_check_order.2.2.1 _ _ (by decide) (by decide)).1).trans
      (by decide),
    compare_dataframes_check_order.2.2.2.1 _ _ (by decide) (by decide) (by decide),
    (compare_dataframes_check_order.2.2.2.2.2.2 _ _ (by decide) (by decide)).mpr
      (by decide),
    compare_dataframes_check_order.2.2.2.2.1 _ _ (by decide) (by decide)
      (by decide) (by decide),
    (compare_dataframes_check_order.2.2.2.2.2.1 _ _ (by decide) (by decide)
      (by decide) (by decide) (by decide)).trans (by decide)⟩

/-- C4: in the value check, numeric cells compare by the tolerance formula
`|a - b| <= atol + rtol * |b|` with `rtol = 1e-5` and `atol = 1e-8`; an
integer cell equals a float cell of the same numeric value, so `[1,2,3]`
matches `[1.0,2.0,3.0]` as Correct; `[1.0000001]` against `[1.0]` is Correct
while `[1.1]` against `[1.0]` is an Incorrect value mismatch. -/
theorem compare_numeric_tolerance :
    rtol = 1 / 100000 ∧ atol = 1 / 100000000 ∧
    (∀ a b : ℚ, cellClose (.float a) (.float b) = true ↔
        |a - b| ≤ atol + rtol * |b|) ∧
    (∀ n : Int, cellClose (.int n) (.float (n : ℚ)) = true) ∧
    compare_dataframes
        (.dataframe ⟨["col"], [[.float (10000001 / 10000000)]], [0]⟩)
        ⟨["col"], [[.float 1]], [0]⟩ = .correct ∧
    compare_dataframes (.dataframe ⟨["col"], [[.float (11 / 10)]], [0]⟩)
        ⟨["col"], [[.float 1]], [0]⟩ = .valueMismatch ["col"] ∧
    compare_dataframes
        (.dataframe ⟨["col"], [[.int 1], [.int 2], [.int 3]], [0, 1, 2]⟩)
        ⟨["col"], [[.float 1], [.float 2], [.float 3]], [0, 1, 2]⟩ = .correct := by
  refine ⟨rfl, rfl, fun a b => ?_, fun n => ?_, ?_, ?_, ?_⟩
  · simp [cellClose, asRat, ratAbs_eq_abs]
  · simpa [cellClose, asRat] using closeQ_refl (n : ℚ)
  · norm_num [compare_dataframes, DataFrame.shape, DataFrame.reset_index,
      framesClose, columnsClose, DataFrame.column, listClose, cellClose, asRat,
      ratAbs, atol, rtol, List.range_succ]
  · have hmsg : ∀ i1 i2 : List Int,
        assertionMessage ⟨["col"], [[.float (11 / 10)]], i1⟩
            ⟨["col"], [[.float 1]], i2⟩
          = "DataFrame.iloc[:, 0] (column name=\"col\") values are different" ++
            "\n[left]:  [0.0]\n[right]: [0.0]" := by
      intro i1 i2
      have hcell : cellClose (.float (11 / 10 : ℚ)) (.float 1) = false := by
        norm_num [cellClose, asRat, ratAbs, atol, rtol]
      simp [assertionMessage, DataFrame.column, List.range_succ, listClose,
        hcell, joinReprs, pyValRepr]
      rfl
    have h1 : strContainsLower
        ("DataFrame.iloc[:, 0] (column name=\"col\") values are different" ++
          "\n[left]:  [0.0]\n[right]: [0.0]") "dtype" = false := by decide
    have h2 : strContainsLower
        ("DataFrame.iloc[:, 0] (column name=\"col\") values are different" ++
          "\n[left]:  [0.0]\n[right]: [0.0]") "values" = true := by decide
    norm_num [compare_dataframes, DataFrame.shape, DataFrame.reset_index,
      framesClose, columnsClose, DataFrame.column, listClose, cellClose, asRat,
      ratAbs, atol, rtol, diffColumns, List.range_succ, hmsg, h1, h2]
  · norm_num [compare_dataframes, DataFrame.shape, DataFrame.reset_index,
      framesClose, columnsClose, DataFrame.column, listClose, cellClose, asRat,
      ratAbs, atol, rtol, List.range_succ]

/-- C6 counterexample: two single-column float tables whose rows are the same
multiset in a different order — `[1.0, 1.0000001]` against
`[1.0000001, 1.0]` — compare Correct, because each vertically aligned cell
pair differs by `1e-7`, which is within the `rtol = 1e-5` tolerance.  So a
row reorder is not always reported as a value mismatch. -/
theorem compare_reordered_rows_within_tolerance_correct :
    ([[PyVal.float 1], [PyVal.float (10000001 / 10000000)]] :
        List (List PyVal)).Perm
      [[PyVal.float (10000001 / 10000000)], [PyVal.float 1]] ∧
    ([[PyVal.float 1], [PyVal.float (10000001 / 10000000)]] :
        List (List PyVal))
      ≠ [[PyVal.float (10000001 / 10000000)], [PyVal.float 1]] ∧
    compare_dataframes
        (.dataframe
          ⟨["col"], [[.float 1], [.float (10000001 / 10000000)]], [0, 1]⟩)
        ⟨["col"], [[.float (10000001 / 10000000)], [.float 1]], [0, 1]⟩
      = .correct := by
  refine ⟨List.Perm.swap _ _ _, ?_, ?_⟩
  · intro h
    have h1 : (1 : ℚ) = 10000001 / 10000000 := by
      have := congrArg (fun l => l.headD []) h
      simpa using this
    norm_num at h1
  · norm_num [compare_dataframes, DataFrame.shape, DataFrame.reset_index,
      framesClose, columnsClose, DataFrame.column, listClose, cellClose, asRat,
      ratAbs, atol, rtol, List.range_succ]

/-- C6 (amended): for tables with identical column sequences and identical
multisets of rows in a different order, `compare_dataframes` reaches the
value check with only the row index labels normalized — rows are not sorted —
and whenever the reordering moves some cell beyond the numeric tolerance (as
with any text cell change, and in particular the Bob/Alice example) while the
resulting assertion message does not contain `dtype` (and mentions values or
a difference, as the pandas message always does), the verdict is an Incorrect
value mismatch naming the differing columns, never Correct.  The
counterexample forces the tolerance proviso — a reorder whose aligned cells
all stay within tolerance compares Correct — and the message proviso carves
out the data-type verdict taken when a column name or string cell puts
`dtype` into the message. -/
theorem compare_row_order_sensitive (A B : DataFrame)
    (hshape : A.shape = B.shape) (hcols : A.cols = B.cols)
    (_hperm : A.rows.Perm B.rows) (_hne : A.rows ≠ B.rows)
    (hfar : framesClose A.reset_index B.reset_index = false)
    (hdt : strContainsLower (assertionMessage A.reset_index B.reset_index)
        "dtype" = false)
    (hvd : (strContainsLower (assertionMessage A.reset_index B.reset_index)
          "values" ||
        strContainsLower (assertionMessage A.reset_index B.reset_index)
          "different") = true) :
    compare_dataframes (.dataframe A) B
        = .valueMismatch (diffColumns A.reset_index B.reset_index) ∧
    diffColumns A.reset_index B.reset_index ≠ [] ∧
    compare_dataframes (.dataframe A) B ≠ .correct := by
  have hrl : A.rows.length = B.rows.length := by
    have := congrArg Prod.fst hshape
    simpa [DataFrame.shape] using this
  have hidx : A.reset_index.index = B.reset_index.index := by
    simp [DataFrame.reset_index, hrl]
  have hcolseq : A.reset_index.cols = B.reset_index.cols := by
    simpa [DataFrame.reset_index] using hcols
  have hcc : columnsClose A.reset_index B.reset_index = false := by
    have h := hfar
    unfold framesClose at h
    simpa [hidx, hcolseq] using h
  have hd := diffColumns_ne_nil hcc
  simp only [Bool.or_eq_true] at hvd
  refine ⟨by simp [compare_dataframes, hshape, hcols, hfar, hd, hdt, hvd],
    hd, ?_⟩
  rw [show compare_dataframes (.dataframe A) B
      = .valueMismatch (diffColumns A.reset_index B.reset_index) from
    by simp [compare_dataframes, hshape, hcols, hfar, hd, hdt, hvd]]
  simp

theorem compare_row_order_sensitive_witness :
    compare_dataframes
        (.dataframe ⟨["name", "age"],
          [[.str "Bob", .int 25], [.str "Alice", .int 30]], [0, 1]⟩)
        ⟨["name", "age"],
          [[.str "Alice", .int 30], [.str "Bob", .int 25]], [0, 1]⟩
      = .valueMismatch ["name", "age"] ∧
    compare_dataframes
        (.dataframe ⟨["name", "age"],
          [[.str "Bob", .int 25], [.str "Alice", .int 30]], [0, 1]⟩)
        ⟨["name", "age"],
          [[.str "Alice", .int 30], [.str "Bob", .int 25]], [0, 1]⟩
      ≠ .correct := by
  have h := compare_row_order_sensitive
    ⟨["name", "age"], [[.str "Bob", .int 25], [.str "Alice", .int 30]], [0, 1]⟩
    ⟨["name", "age"], [[.str "Alice", .int 30], [.str "Bob", .int 25]], [0, 1]⟩
    (by decide) (by decide) (List.Perm.swap _ _ _) (by decide) (by decide)
    (by decide) (by decide)
  exact ⟨h.1.trans (by decide), h.2.2⟩

theorem getD_append_left (l t : List DataFrame) (n : Nat) (h : n < l.length)
    (d : DataFrame) : (l ++ t).getD n d = l.getD n d := by
  simp [List.getD_eq_getElem?_getD, List.getElem?_append, h]

theorem execute_pandas_heap_store (sem : List (String × DataFrame) → CodeEffect)
    (s : Store) (tables : List (String × Nat)) :
    (execute_pandas_heap sem s tables).2
      = s ++ (sem (tables.map fun p => (p.1, s.getD p.2 ⟨[], [], []⟩))).finalTables :=
  rfl

theorem execute_pandas_heap_result_congr
    (sem : List (String × DataFrame) → CodeEffect) (s s' : Store)
    (tables : List (String × Nat))
    (hagree : ∀ p ∈ tables, s'.getD p.2 ⟨[], [], []⟩ = s.getD p.2 ⟨[], [], []⟩) :
    (execute_pandas_heap sem s' tables).1 = (execute_pandas_heap sem s tables).1 := by
  unfold execute_pandas_heap
  have hmap : tables.map (fun p => (p.1, s'.getD p.2 ⟨[], [], []⟩))
      = tables.map (fun p => (p.1, s.getD p.2 ⟨[], [], []⟩)) :=
    List.map_congr_left fun p hp => by rw [hagree p hp]
  simp only [hmap]

/-- C8: neither backend mutates the caller's input DataFrames — the dataframe
backend binds each table variable to an independent copy in a fresh heap cell
(`df.copy()`, source line 70), so the portion of the heap the caller owns is
returned unchanged, and the relational backend only reads each table while
loading it into the transient SQLite database (source lines 109-116), leaving
the heap untouched — and therefore running the same submission twice in
sequence on the same named tables produces identical outcomes for either
backend, even when the first dataframe run mutates its bound table variables
in place: the second run reads the original, untouched values. -/
theorem backends_do_not_mutate_inputs
    (sem : List (String × DataFrame) → CodeEffect)
    (qsem : List (String × DataFrame) → SqlBehavior) (s : Store)
    (tables : List (String × Nat)) (h : ∀ p ∈ tables, p.2 < s.length) :
    (execute_pandas_heap sem s tables).2.take s.length = s ∧
    (execute_pandas_heap sem (execute_pandas_heap sem s tables).2 tables).1
      = (execute_pandas_heap sem s tables).1 ∧
    (execute_sql_heap qsem s tables).2 = s ∧
    (execute_sql_heap qsem (execute_sql_heap qsem s tables).2 tables).1
      = (execute_sql_heap qsem s tables).1 := by
  refine ⟨?_, ?_, rfl, rfl⟩
  · rw [execute_pandas_heap_store]
    exact List.take_left _ _
  · apply execute_pandas_heap_result_congr
    intro p hp
    rw [execute_pandas_heap_store]
    exact getD_append_left _ _ _ (h p hp) _

/-- Sample submission semantics for the isolation witness: the code empties
its bound copy of table `t` in place and returns the table value it read as
`result`. -/
def mutateSem : List (String × DataFrame) → CodeEffect :=
  fun vs =>
    ⟨[⟨["a"], [], []⟩], .ok [("result", .dataframe (vs.headD ("t", ⟨[], [], []⟩)).2)]⟩

/-- Sample SQL session semantics for the isolation witness: the query selects
everything from the loaded table `t`. -/
def sqlSelectSem : List (String × DataFrame) → SqlBehavior :=
  fun vs => .succeeds (vs.headD ("t", ⟨[], [], []⟩)).2

/-- The caller's heap for the isolation witness: one table at address 0. -/
def heapW : Store := [⟨["a"], [[.str "x"]], [0]⟩]

theorem backends_do_not_mutate_inputs_witness :
    (execute_pandas_heap mutateSem heapW [("t", 0)]).2.take 1 = heapW ∧
    (execute_pandas_heap mutateSem
        (execute_pandas_heap mutateSem heapW [("t", 0)]).2 [("t", 0)]).1
      = (execute_pandas_heap mutateSem heapW [("t", 0)]).1 ∧
    (execute_sql_heap sqlSelectSem heapW [("t", 0)]).2 = heapW ∧
    (execute_sql_heap sqlSelectSem
        (execute_sql_heap sqlSelectSem heapW [("t", 0)]).2 [("t", 0)]).1
      = (execute_sql_heap sqlSelectSem heapW [("t", 0)]).1 := by
  have h := backends_do_not_mutate_inputs mutateSem sqlSelectSem heapW
    [("t", 0)] (by decide)
  exact ⟨h.1, h.2.1, h.2.2.1, h.2.2.2⟩
